import Mathlib

/-!
Shallow embedding of `src/pyet/utils.py` (module `pyet.utils`).

Conventions of the embedding:
* Python/numpy floating-point values are idealised as real numbers; the NaN
  sentinel is modelled by `Option ℝ` (`none` = NaN).  The numpy ufunc that
  can leave the real domain (`arccos`) returns `none` outside its domain,
  and all lifted arithmetic propagates `none`.
* A pandas time index is a list of timestamps, of which the module observes
  only the calendar day-of-year (`strftime` with the day-of-year format) and
  the hour of day; series-level operations are element-wise maps over lists.
* The module's global namespace is modelled explicitly: lines 1-2 of the
  source import exactly `tan, cos, pi, sin, arccos` from numpy and
  `to_numeric` from pandas.  The names `clip` and `maximum` evaluated at
  source lines 77-80 are neither imported, nor defined in the module, nor
  Python builtins, so reaching them raises `NameError`; functions whose body
  can raise are embedded with an `Except` return type.
* The source writes the rational literal `3.141592654` inside
  `solar_declination`, `relative_distance` and `extraterrestrial_r`, while
  using the imported (ideal) `pi` elsewhere; the embedding keeps this
  distinction, mapping numpy's `pi` to `Real.pi` and the literal to the
  rational number `3.141592654`.
-/

open Real

/-- A timestamp of the meteorological index: the module observes only the
1-based calendar day-of-year and the hour of day of each timestamp. -/
structure Timestamp where
  doy : ℕ
  hour : ℕ

/-- Python float values: `none` is the NaN sentinel. -/
abbrev PFloat := Option ℝ

/-- `numpy.arccos`: NaN (an invalid-value warning, never an exception)
outside `[-1, 1]`, otherwise the principal arc cosine. -/
noncomputable def np_arccos (x : ℝ) : PFloat :=
  if |x| ≤ 1 then some (Real.arccos x) else none

/-- Element-wise negation of a series entry (NaN propagates). -/
def np_neg (x : PFloat) : PFloat := x.map fun v => -v

/-- `numpy.clip x lo hi`, i.e. `minimum hi (maximum x lo)`; a NaN in any
slot propagates. -/
noncomputable def np_clip (x lo hi : PFloat) : PFloat :=
  match x, lo, hi with
  | some xv, some lov, some hiv => some (min hiv (max xv lov))
  | _, _, _ => none

/-- `numpy.maximum`; NaN propagates. -/
noncomputable def np_maximum (a b : PFloat) : PFloat :=
  match a, b with
  | some av, some bv => some (max av bv)
  | _, _ => none

/-- Round half to even (the tie-breaking used by Python's `round` and by
pandas/numpy rounding), from a real number to an integer. -/
noncomputable def roundHalfEven (y : ℝ) : ℤ :=
  if (y - (⌊y⌋ : ℝ)) = 1 / 2 then (if Even ⌊y⌋ then ⌊y⌋ else ⌊y⌋ + 1)
  else round y

/-- Python `round(x, 1)` on a float / series entry: round to one decimal. -/
noncomputable def round1 (x : ℝ) : ℝ := (roundHalfEven (10 * x) : ℝ) / 10

/-- The global names bound by the import statements at source lines 1-2. -/
def importedNames : List String := ["tan", "cos", "pi", "sin", "arccos", "to_numeric"]

/-- The global names the module itself defines (its eight functions). -/
def moduleFunctionNames : List String :=
  ["day_of_year", "daylight_hours", "sunset_angle", "sunset_angle_hour",
   "solar_declination", "relative_distance", "extraterrestrial_r",
   "extraterrestrial_r_hour"]

/-- The Python builtins the module refers to (`round`); neither `clip` nor
`maximum` is a Python builtin. -/
def referencedBuiltins : List String := ["round"]

/-- Python global-name resolution for the names this module evaluates: a
name resolves iff it was imported, is defined at module level, or is a
builtin the module uses. -/
def resolvesGlobal (n : String) : Bool :=
  importedNames.contains n || moduleFunctionNames.contains n ||
    referencedBuiltins.contains n

/-- The exception Python raises when a global name fails to resolve. -/
inductive PyError where
  | nameError (n : String)
  deriving DecidableEq

/-- `day_of_year` (source lines 5-19): the 1-based day of the year of each
timestamp of the index, converted to numbers by `to_numeric`. -/
noncomputable def day_of_year (meteoindex : List Timestamp) : List ℝ :=
  meteoindex.map fun ts => (ts.doy : ℝ)

/-- `solar_declination` (source lines 84-98), element-wise core:
`0.4093 * sin(2. * 3.141592654 / 365. * j - 1.39)`. -/
noncomputable def solar_declination (j : ℝ) : ℝ :=
  0.4093 * Real.sin (2 * 3.141592654 / 365 * j - 1.39)

/-- `relative_distance` (source lines 101-115), element-wise core:
`1 + 0.033 * cos((2. * 3.141592654 / 365.) * j)`. -/
noncomputable def relative_distance (j : ℝ) : ℝ :=
  1 + 0.033 * Real.cos (2 * 3.141592654 / 365 * j)

/-- `sunset_angle` (source lines 32-48), element-wise/broadcast core:
`arccos(-tan(sol_dec) * tan(lat))`. -/
noncomputable def sunset_angle (sol_dec lat : ℝ) : PFloat :=
  np_arccos (-(Real.tan sol_dec * Real.tan lat))

/-- `daylight_hours` (source lines 21-29):
`round(24 / pi * sunset_angle(solar_declination(day_of_year(idx)), lat), 1)`
element-wise; the `pi` at line 29 is numpy's. -/
noncomputable def daylight_hours (meteoindex : List Timestamp) (lat : ℝ) : List PFloat :=
  let j := day_of_year meteoindex
  let sol_dec := j.map solar_declination
  let sangle := sol_dec.map fun sd => sunset_angle sd lat
  sangle.map (Option.map fun s => round1 (24 / π * s))

/-- Seasonal correction `b = 2*pi*(j-81)/364` of `sunset_angle_hour`
(source line 68; this `pi` is numpy's). -/
noncomputable def sah_b (j : ℝ) : ℝ := 2 * π * (j - 81) / 364

/-- Seasonal time-correction term
`sc = 0.1645*sin(2*b) - 0.1255*cos(b) - 0.025*sin(b)` of
`sunset_angle_hour` (source line 69). -/
noncomputable def sah_sc (j : ℝ) : ℝ :=
  0.1645 * Real.sin (2 * sah_b j) - 0.1255 * Real.cos (sah_b j) -
    0.025 * Real.sin (sah_b j)

/-- The pair the body of `sunset_angle_hour` (source lines 66-81) computes
at the point where the names `clip` and `maximum` are evaluated, giving
those names numpy's element-wise clip/maximum semantics.  The intermediate
`sol_t` is computed exactly as in the source and never used afterwards;
`omega` is the fixed constant `pi/12`. -/
noncomputable def sunset_angle_hour_vals (meteoindex : List Timestamp) (lz lm lat : ℝ)
    (sol_dec : List ℝ) : List PFloat × List PFloat :=
  let j := day_of_year meteoindex
  let sc := j.map sah_sc
  let t := meteoindex.map fun ts => (ts.hour : ℝ) + 0.5
  let sol_t := List.zipWith (fun ti sci => ti + 0.06667 * (lz - lm) + sci - 12) t sc
  let omega : ℝ := π / 12
  let omega1 : ℝ := omega - π / 24
  let omega2 : ℝ := omega + π / 24
  let omegas := sol_dec.map fun sd => np_arccos (-(Real.tan lat * Real.tan sd))
  let omega1c := omegas.map fun ws => np_clip (some omega1) (np_neg ws) ws
  let omega2c := omegas.map fun ws => np_clip (some omega2) (np_neg ws) ws
  let omega1m := List.zipWith np_maximum omega1c omega1c
  let omega1f := List.zipWith (fun x hi => np_clip x (some (-100000000)) hi) omega1m omega2c
  (omega2c, omega1f)

/-- `sunset_angle_hour` (source lines 51-81) as executed: the global name
`clip` at source line 77 is looked up when first reached; it does not
resolve, so a `NameError` is raised there (and `maximum` at line 79 would
fail in the same way).  Were both names bound to numpy's functions, the
function would return the pair of `sunset_angle_hour_vals`. -/
noncomputable def sunset_angle_hour (meteoindex : List Timestamp) (lz lm lat : ℝ)
    (sol_dec : List ℝ) : Except PyError (List PFloat × List PFloat) :=
  if resolvesGlobal "clip" = false then Except.error (PyError.nameError "clip")
  else if resolvesGlobal "maximum" = false then Except.error (PyError.nameError "maximum")
  else Except.ok (sunset_angle_hour_vals meteoindex lz lm lat sol_dec)

/-- `extraterrestrial_r` (source lines 118-141), element-wise: note the call
`sunset_angle(lat, sol_dec)` at line 137 passes `lat` in the `sol_dec` slot
and vice versa, and line 140 divides by the literal `3.141592654`. -/
noncomputable def extraterrestrial_r (meteoindex : List Timestamp) (lat : ℝ) : List PFloat :=
  (day_of_year meteoindex).map fun jv =>
    let dr := relative_distance jv
    let sol_dec := solar_declination jv
    let omega := sunset_angle lat sol_dec
    let xx := Real.sin sol_dec * Real.sin lat
    let yy := Real.cos sol_dec * Real.cos lat
    omega.map fun w => 118.08 / 3.141592654 * dr * (w * xx + yy * Real.sin w)

/-- `extraterrestrial_r_hour` (source lines 144-168): any exception from
`sunset_angle_hour` propagates; otherwise the radiation is computed
element-wise from `dr`, `sol_dec` and the pair `(omega2, omega1)`. -/
noncomputable def extraterrestrial_r_hour (meteoindex : List Timestamp)
    (lat lz lm : ℝ) : Except PyError (List PFloat) := do
  let j := day_of_year meteoindex
  let dr := j.map relative_distance
  let sol_dec := j.map solar_declination
  let (omega2, omega1) ← sunset_angle_hour meteoindex lz lm lat sol_dec
  let xx := sol_dec.map fun sd => Real.sin sd * Real.sin lat
  let yy := sol_dec.map fun sd => Real.cos sd * Real.cos lat
  let gsc : ℝ := 4.92
  pure (List.zipWith
    (fun (dxy : ℝ × ℝ × ℝ) (w : PFloat × PFloat) =>
      match w.1, w.2 with
      | some w2, some w1 =>
          some (12 / π * gsc * dxy.1 *
            ((w2 - w1) * dxy.2.1 + dxy.2.2 * (Real.sin w2 - Real.sin w1)))
      | _, _ => none)
    (List.zip dr (List.zip xx yy)) (List.zip omega2 omega1))

/-- C1: the claim says a domain violation propagates as NaN and in
particular that every call of `sunset_angle_hour`, and hence of
`extraterrestrial_r_hour`, completes and returns a value rather than
raising.  In fact every call of `extraterrestrial_r_hour` raises a
`NameError` for the unimported global `clip`; here it is evaluated at a
concrete input. -/
theorem C1_extraterrestrial_r_hour_raises :
    extraterrestrial_r_hour [⟨100, 6⟩] 0.5 10 20 =
      Except.error (PyError.nameError "clip") := by
  have h : resolvesGlobal "clip" = false := by decide
  simp [extraterrestrial_r_hour, sunset_angle_hour, h]

/-- C2: the claim says `sunset_angle_hour` returns a pair `(omega2, omega1)`
with `omega1 ≤ omega2` after the final clamp.  In fact it never returns: the
global name `clip` at source line 77 is not defined, so every call raises a
`NameError`; here it is evaluated at a concrete input. -/
theorem C2_sunset_angle_hour_raises :
    sunset_angle_hour [⟨1, 0⟩] 0 0 0 [0] =
      Except.error (PyError.nameError "clip") := by
  have h : resolvesGlobal "clip" = false := by decide
  simp [sunset_angle_hour, h]

/-- C5: `daylight_hours idx lat` equals
`round(24/pi * sunset_angle(solar_declination(day_of_year(idx)), lat), 1)`
element-wise, exactly, by construction. -/
theorem C5_daylight_hours_roundtrip (meteoindex : List Timestamp) (lat : ℝ) :
    daylight_hours meteoindex lat =
      ((day_of_year meteoindex).map solar_declination).map
        fun sd => (sunset_angle sd lat).map fun s => round1 (24 / π * s) := by
  simp [daylight_hours, List.map_map, Function.comp]

/-- C9: for day-of-year `j = 81` the seasonal correction `b = 2*pi*(j-81)/364`
is `0` and the seasonal time-correction term
`sc = 0.1645*sin(2b) - 0.1255*cos(b) - 0.025*sin(b)` is exactly `-0.1255`
in exact arithmetic. -/
theorem C9_seasonal_correction_at_equinox :
    sah_b 81 = 0 ∧ sah_sc 81 = -0.1255 := by
  have hb : sah_b 81 = 0 := by unfold sah_b; ring
  refine ⟨hb, ?_⟩
  unfold sah_sc
  rw [hb]
  norm_num [Real.sin_zero, Real.cos_zero]

/-- C10: the outcome of `sunset_angle_hour` does not depend on `lz`, `lm` or
the hour-of-day of the index: two runs agreeing on the day-of-year sequence,
`lat` and `sol_dec` produce identical results, both for the function as
executed and for the pair its body computes under numpy clip/maximum
semantics (`omega` is the fixed constant `pi/12` and `sol_t` is never
used). -/
theorem C10_hour_lz_lm_noninterference (idx1 idx2 : List Timestamp)
    (lz1 lz2 lm1 lm2 lat : ℝ) (sol_dec : List ℝ)
    (hday : day_of_year idx1 = day_of_year idx2) :
    sunset_angle_hour idx1 lz1 lm1 lat sol_dec =
        sunset_angle_hour idx2 lz2 lm2 lat sol_dec ∧
    sunset_angle_hour_vals idx1 lz1 lm1 lat sol_dec =
        sunset_angle_hour_vals idx2 lz2 lm2 lat sol_dec := by
  have hvals : sunset_angle_hour_vals idx1 lz1 lm1 lat sol_dec =
      sunset_angle_hour_vals idx2 lz2 lm2 lat sol_dec := rfl
  exact ⟨by unfold sunset_angle_hour; rw [hvals], hvals⟩

/-- Witness for C10 at concrete inputs: same day-of-year 200, different
hours (3 vs 17), different `lz` (15 vs -45) and `lm` (30 vs 60). -/
theorem C10_witness :
    sunset_angle_hour [⟨200, 3⟩] 15 30 0.7 [0.2] =
        sunset_angle_hour [⟨200, 17⟩] (-45) 60 0.7 [0.2] ∧
    sunset_angle_hour_vals [⟨200, 3⟩] 15 30 0.7 [0.2] =
        sunset_angle_hour_vals [⟨200, 17⟩] (-45) 60 0.7 [0.2] :=
  C10_hour_lz_lm_noninterference [⟨200, 3⟩] [⟨200, 17⟩] 15 (-45) 30 60 0.7
    [0.2] rfl

/-- C3: for every `sol_dec` and `lat`, `sunset_angle sol_dec lat` is the NaN
sentinel (a returned value, not an exception) whenever
`|tan(sol_dec)*tan(lat)| > 1`, and otherwise its value lies in `[0, π]`. -/
theorem C3_sunset_angle_nan_or_in_range (sol_dec lat : ℝ) :
    (1 < |Real.tan sol_dec * Real.tan lat| → sunset_angle sol_dec lat = none) ∧
    (|Real.tan sol_dec * Real.tan lat| ≤ 1 →
      ∃ y, sunset_angle sol_dec lat = some y ∧ 0 ≤ y ∧ y ≤ π) := by
  have habs : |(-(Real.tan sol_dec * Real.tan lat))| =
      |Real.tan sol_dec * Real.tan lat| := abs_neg _
  constructor
  · intro h
    unfold sunset_angle np_arccos
    rw [if_neg]
    rw [habs]
    exact not_le.mpr h
  · intro h
    refine ⟨Real.arccos (-(Real.tan sol_dec * Real.tan lat)), ?_,
      Real.arccos_nonneg _, Real.arccos_le_pi _⟩
    unfold sunset_angle np_arccos
    rw [if_pos]
    rw [habs]
    exact h

/-- Witness for C3: at `sol_dec = lat = arctan 2` the arccos argument has
absolute value `4 > 1` and the result is NaN; at `sol_dec = lat = 0` it is
`0` and the result is a value in `[0, π]`. -/
theorem C3_witness :
    sunset_angle (Real.arctan 2) (Real.arctan 2) = none ∧
    (∃ y, sunset_angle 0 0 = some y ∧ 0 ≤ y ∧ y ≤ π) :=
  ⟨(C3_sunset_angle_nan_or_in_range (Real.arctan 2) (Real.arctan 2)).1
      (by rw [Real.tan_arctan]; norm_num),
   (C3_sunset_angle_nan_or_in_range 0 0).2 (by rw [Real.tan_zero]; norm_num)⟩

/-- C4 counterexample: the claim that some `sol_dec`, `lat` make
`sunset_angle lat sol_dec` differ from `sunset_angle sol_dec lat` is false:
the product of tangents commutes, so no such pair exists. -/
theorem C4_counterexample :
    ¬ ∃ sol_dec lat : ℝ,
      sunset_angle lat sol_dec ≠ sunset_angle sol_dec lat := by
  push_neg
  intro sol_dec lat
  unfold sunset_angle
  rw [show -(Real.tan lat * Real.tan sol_dec) =
      -(Real.tan sol_dec * Real.tan lat) from by ring]

/-- C4 (amended): `sunset_angle` is reorder-invariant in its two arguments,
so the swapped-argument call `sunset_angle(lat, sol_dec)` inside
`extraterrestrial_r` computes exactly the same omega as the declared
parameter order would. -/
theorem C4_sunset_angle_symmetric (sol_dec lat : ℝ) :
    sunset_angle lat sol_dec = sunset_angle sol_dec lat := by
  unfold sunset_angle
  rw [show -(Real.tan lat * Real.tan sol_dec) =
      -(Real.tan sol_dec * Real.tan lat) from by ring]

/-- C6 counterexample: at `j = 81` the code's value differs from
`0.4093 * sin(2*π/365*j - 1.39)`, because the source multiplies by the
rational literal `3.141592654` and `π` is irrational; both sine arguments
lie in `[-π/2, π/2]`, where `sin` is injective. -/
theorem C6_counterexample :
    solar_declination 81 ≠ 0.4093 * Real.sin (2 * π / 365 * 81 - 1.39) := by
  unfold solar_declination
  intro h
  have hsin : Real.sin (2 * 3.141592654 / 365 * 81 - 1.39) =
      Real.sin (2 * π / 365 * 81 - 1.39) :=
    mul_left_cancel₀ (by norm_num : (0.4093 : ℝ) ≠ 0) h
  have hπ1 : (3.141592 : ℝ) < π := Real.pi_gt_d6
  have hπ2 : π < 3.141593 := Real.pi_lt_d6
  have hmem1 : (2 * 3.141592654 / 365 * 81 - 1.39 : ℝ) ∈
      Set.Icc (-(π / 2)) (π / 2) :=
    Set.mem_Icc.mpr ⟨by linarith, by linarith⟩
  have hmem2 : (2 * π / 365 * 81 - 1.39 : ℝ) ∈
      Set.Icc (-(π / 2)) (π / 2) :=
    Set.mem_Icc.mpr ⟨by linarith, by linarith⟩
  have heq := Real.injOn_sin hmem1 hmem2 hsin
  have hpi : (3.141592654 : ℝ) = π := by linarith
  have hrat : ((3.141592654 : ℚ) : ℝ) = (3.141592654 : ℝ) := by norm_num
  exact irrational_pi.ne_rat 3.141592654 ((hrat.trans hpi).symm)

/-- C6 (amended): `solar_declination` computes, element-wise and totally on
any real `j`, the value `0.4093 * sin(2*3.141592654/365*j - 1.39)` — the
source's constant is the literal `3.141592654`, not `π` — and for every
real `j` (in particular every day-of-year in `[1, 365]`) the result lies
within the amplitude bound `[-0.41, 0.41]`. -/
theorem C6_solar_declination_formula_bound (j : ℝ) :
    solar_declination j =
      0.4093 * Real.sin (2 * 3.141592654 / 365 * j - 1.39) ∧
    |solar_declination j| ≤ 0.41 := by
  refine ⟨rfl, ?_⟩
  unfold solar_declination
  rw [abs_mul]
  have h1 : |Real.sin (2 * 3.141592654 / 365 * j - 1.39)| ≤ 1 :=
    Real.abs_sin_le_one _
  have h2 : |(0.4093 : ℝ)| = 0.4093 := by norm_num
  nlinarith [abs_nonneg (Real.sin (2 * 3.141592654 / 365 * j - 1.39))]

/-- C7 counterexample: at `j = 81` the code's value differs from
`1 + 0.033 * cos(2*π/365*j)`, because the source multiplies by the rational
literal `3.141592654` and `π` is irrational; both cosine arguments lie in
`[0, π]`, where `cos` is injective. -/
theorem C7_counterexample :
    relative_distance 81 ≠ 1 + 0.033 * Real.cos (2 * π / 365 * 81) := by
  unfold relative_distance
  intro h
  have h2 : (0.033 : ℝ) * Real.cos (2 * 3.141592654 / 365 * 81) =
      0.033 * Real.cos (2 * π / 365 * 81) := by linarith
  have hcos : Real.cos (2 * 3.141592654 / 365 * 81) =
      Real.cos (2 * π / 365 * 81) :=
    mul_left_cancel₀ (by norm_num : (0.033 : ℝ) ≠ 0) h2
  have hπ1 : (3.141592 : ℝ) < π := Real.pi_gt_d6
  have hπ2 : π < 3.141593 := Real.pi_lt_d6
  have hmem1 : (2 * 3.141592654 / 365 * 81 : ℝ) ∈ Set.Icc 0 π :=
    Set.mem_Icc.mpr ⟨by norm_num, by linarith⟩
  have hmem2 : (2 * π / 365 * 81 : ℝ) ∈ Set.Icc 0 π :=
    Set.mem_Icc.mpr ⟨by positivity, by linarith⟩
  have heq := Real.injOn_cos hmem1 hmem2 hcos
  have hpi : (3.141592654 : ℝ) = π := by linarith
  have hrat : ((3.141592654 : ℚ) : ℝ) = (3.141592654 : ℝ) := by norm_num
  exact irrational_pi.ne_rat 3.141592654 ((hrat.trans hpi).symm)

/-- C7 (amended): `relative_distance` computes, element-wise and totally,
`1 + 0.033 * cos(2*3.141592654/365*j)` — the source's constant is the
literal `3.141592654`, not `π` — and its value lies in `[0.967, 1.033]`
for every real `j`. -/
theorem C7_relative_distance_formula_bound (j : ℝ) :
    relative_distance j = 1 + 0.033 * Real.cos (2 * 3.141592654 / 365 * j) ∧
    0.967 ≤ relative_distance j ∧ relative_distance j ≤ 1.033 := by
  refine ⟨rfl, ?_, ?_⟩ <;>
  · unfold relative_distance
    nlinarith [Real.neg_one_le_cos (2 * 3.141592654 / 365 * j),
      Real.cos_le_one (2 * 3.141592654 / 365 * j)]

/-- At the equator `tan 0 = 0`, so the arccos argument is `0` and
`sunset_angle sd 0 = arccos 0 = π/2` for every declination. -/
lemma sunset_angle_equator (sd : ℝ) : sunset_angle sd 0 = some (π / 2) := by
  unfold sunset_angle np_arccos
  rw [Real.tan_zero, mul_zero, neg_zero]
  rw [if_pos (by norm_num : |(0 : ℝ)| ≤ 1)]
  rw [Real.arccos_zero]

/-- Rounding `12` to one decimal gives `12` (no tie is involved). -/
lemma round1_twelve : round1 12 = 12 := by
  have h120 : (10 : ℝ) * 12 = ((120 : ℤ) : ℝ) := by norm_num
  unfold round1 roundHalfEven
  rw [h120, Int.floor_intCast, round_intCast]
  rw [if_neg (by norm_num : ¬(((120 : ℤ) : ℝ) - ((120 : ℤ) : ℝ) = 1 / 2))]
  norm_num

/-- At latitude `0` every entry of `daylight_hours` is exactly `12`. -/
lemma daylight_hours_equator (meteoindex : List Timestamp) :
    daylight_hours meteoindex 0 = meteoindex.map fun _ => some (12 : ℝ) := by
  have hval : 24 / π * (π / 2) = (12 : ℝ) := by
    field_simp
    ring
  simp only [daylight_hours, day_of_year, List.map_map]
  refine List.map_congr_left fun ts _ => ?_
  simp only [Function.comp]
  rw [sunset_angle_equator, Option.map_some', hval, round1_twelve]

/-- C8: for latitude `0` (the equator) and any time index, every entry of
`daylight_hours` is within `0.1` of `12.0` (it is in fact exactly `12`,
since `tan 0 = 0` makes the arccos argument `0`, so the sunset angle is
`π/2` and `round(24/π * π/2, 1) = 12`). -/
theorem C8_daylight_hours_equator_twelve (meteoindex : List Timestamp)
    (x : PFloat) (hx : x ∈ daylight_hours meteoindex 0) :
    ∃ r : ℝ, x = some r ∧ |r - 12| ≤ 1 / 10 := by
  rw [daylight_hours_equator] at hx
  simp only [List.mem_map] at hx
  obtain ⟨ts, -, rfl⟩ := hx
  exact ⟨12, rfl, by norm_num⟩

/-- Witness for C8 at the concrete index with day-of-year 172 (and every
other day, by `daylight_hours_equator`). -/
theorem C8_witness :
    ∃ r : ℝ, (some (12 : ℝ) : PFloat) = some r ∧ |r - 12| ≤ 1 / 10 :=
  C8_daylight_hours_equator_twelve [⟨172, 0⟩] (some 12)
    (by rw [daylight_hours_equator]; simp)
